import Mathlib

/-!
Shallow embedding of `target_s3/__init__.py` (the checkr/target-s3 singer
target): a streaming sink that reads newline-delimited singer messages,
groups RECORD lines into per-partition buffers, flushes the buffers to S3
under date-partitioned keys, and persists the latest STATE message.

Python dicts are modelled as association lists preserving insertion order
(Python 3.7+ semantics).  JSON payload values are modelled as strings: a
non-string value fed to `bson.objectid.ObjectId` or `dateutil.parser.parse`
raises, which the source swallows, exactly like an unparseable string.
Wall-clock calls (`datetime.now()`) are passed in explicitly as parameters.
Filesystem and S3 effects are modelled by explicit success parameters and
by recording the uploads performed.
-/

namespace TargetS3

/-- A calendar date (only year/month/day of the Python datetimes are ever
used by the source: in the partition key and in the S3 key). -/
structure Date where
  year : Nat
  month : Nat
  day : Nat
deriving DecidableEq, Repr

/-- The sub-day part of `datetime.now()` used by `upload_to_s3` to build the
LOG_BASED file-name suffix. -/
structure Time where
  minute : Nat
  second : Nat
  microsecond : Nat
deriving DecidableEq, Repr

/-- The `value` field of a STATE message, as read by
`singer.get_bookmark(state['value'], stream, key)`: its optional
`bookmarks` entry maps a stream name to a map of bookmark keys to values.
An absent `bookmarks` key is the empty list (Python defaults it to `{}`). -/
structure StateValue where
  bookmarks : List (String × List (String × String))
deriving DecidableEq, Repr

/-- A decoded JSON line, with exactly the fields the source reads:
`json_line['type']`, `json_line['stream']`, `json_line['record']` (its
items, in order), and `json_line['value']` (for STATE lines).  A missing
key is `none`. -/
structure JsonLine where
  type : Option String
  stream : Option String
  record : Option (List (String × String))
  value : Option StateValue
deriving DecidableEq, Repr

/-- One raw input line together with its `json.loads` result; `parsed =
none` models a `JSONDecodeError` (or a non-object line, which raises a
`TypeError` at the `'type' not in json_line` test — both are swallowed by
the same per-line handler in `main`). -/
structure InputLine where
  raw : String
  parsed : Option JsonLine
deriving DecidableEq, Repr

/-- The `state` variable of `main`: it starts as the empty dict `{}` and is
only ever replaced by a whole STATE json line (of which only the `value`
field is read back, via `state['value']`). -/
inductive TgtState where
  | empty : TgtState
  | line : Option StateValue → TgtState
deriving DecidableEq, Repr

/-- `state['value']`: a `KeyError` (modelled as `none`) when the state is
still the initial `{}` or the stored STATE line had no `value` key. -/
def TgtState.value? : TgtState → Option StateValue
  | .empty => none
  | .line v => v

/-- The configuration dict, with the keys the repository documents:
`source` and `bucket` (required), `state_file_path` (optional), and the
optional `partition_on_time_created` flag mentioned by the documentation. -/
structure Config where
  source : String
  bucket : String
  state_file_path : Option String
  partition_on_time_created : Option Bool
deriving DecidableEq, Repr

/-- First-match association-list lookup, the model of Python `dict.get`
(keys are unique in dicts, so first-match agrees with dict lookup). -/
def alist_get {α : Type} : List (String × α) → String → Option α
  | [], _ => none
  | p :: rest, k => if p.1 = k then some p.2 else alist_get rest k

/-- `singer.get_bookmark(state_value, tap_stream_id, key)` =
`state_value.get('bookmarks', {}).get(tap_stream_id, {}).get(key, None)`. -/
def get_bookmark (sv : StateValue) (stream key : String) : Option String :=
  match alist_get sv.bookmarks stream with
  | none => none
  | some bm => alist_get bm key

/-- Hex digit test used by `bson.objectid.ObjectId`'s validity check
(`string.hexdigits`: 0-9, a-f, A-F). -/
def isHexChar (c : Char) : Bool :=
  c.isDigit || ('a' ≤ c && c ≤ 'f') || ('A' ≤ c && c ≤ 'F')

/-- Value of one hex digit. -/
def hexVal (c : Char) : Nat :=
  if c.isDigit then c.toNat - 48
  else if 'a' ≤ c then c.toNat - 87
  else c.toNat - 55

/-- Big-endian hex-string value. -/
def hexToNat (cs : List Char) : Nat :=
  cs.foldl (fun a c => a * 16 + hexVal c) 0

/-- Civil date from days since 1970-01-01 (non-negative), the standard
days-to-civil conversion used to model `datetime.utcfromtimestamp`. -/
def civilFromDays (z : Nat) : Date :=
  let z' := z + 719468
  let era := z' / 146097
  let doe := z' % 146097
  let yoe := (doe - doe / 1460 + doe / 36524 - doe / 146096) / 365
  let y := yoe + era * 400
  let doy := doe - (365 * yoe + yoe / 4 - yoe / 100)
  let mp := (5 * doy + 2) / 153
  let d := doy - (153 * mp + 2) / 5 + 1
  let m := if mp < 10 then mp + 3 else mp - 9
  ⟨if m ≤ 2 then y + 1 else y, m, d⟩

/-- `bson.objectid.ObjectId(v).generation_time`'s calendar date:
`ObjectId(v)` succeeds exactly on 24-character hex strings, and its
generation time is the UTC datetime of the big-endian timestamp stored in
the first 4 bytes (8 hex characters).  (`oid.is_valid` in the source is a
bound method, hence always truthy, so construction success is all that
matters.)  `none` models the swallowed `InvalidId`/`TypeError`. -/
def oid_generation_time (v : String) : Option Date :=
  if v.length = 24 ∧ v.toList.all isHexChar = true then
    some (civilFromDays (hexToNat (v.toList.take 8) / 86400))
  else none

/-- Python `str.split('-')` on the character list: split greedily at every
dash. -/
def splitOnDash : List Char → List (List Char)
  | [] => [[]]
  | c :: rest =>
    if c = '-' then [] :: splitOnDash rest
    else
      match splitOnDash rest with
      | [] => [[c]]
      | g :: gs => (c :: g) :: gs

/-- Python `str.split('::')` on the character list: split greedily, left to
right, at every occurrence of two consecutive colons. -/
def splitOnColons : List Char → List (List Char)
  | [] => [[]]
  | [c] => [[c]]
  | c1 :: c2 :: rest =>
    if c1 = ':' ∧ c2 = ':' then
      [] :: splitOnColons rest
    else
      match splitOnColons (c2 :: rest) with
      | [] => [[c1]]
      | g :: gs => (c1 :: g) :: gs

/-- `int(s)` on a string of decimal digits. -/
def digitsToNat (cs : List Char) : Nat :=
  cs.foldl (fun a c => a * 10 + (c.toNat - 48)) 0

/-- Modelled from the external collaborator `dateutil.parser.parse`,
restricted to plain `Y-M-D` digit strings; every other input is treated as
a parse failure (`none`), which the caller swallows either way. -/
def dateutil_parse (v : String) : Option Date :=
  match splitOnDash v.toList with
  | [ys, ms, ds] =>
    if ys ≠ [] ∧ ms ≠ [] ∧ ds ≠ [] ∧ (ys ++ ms ++ ds).all Char.isDigit = true then
      some ⟨digitsToNat ys, digitsToNat ms, digitsToNat ds⟩
    else none
  | _ => none

/-- The FULL_TABLE field scan of `create_stream_to_record_map`: walk the
record's items in order, overwriting `time_created` on every `_id` that
parses as an ObjectId and every `created_at` that `dateutil` parses; any
parse failure is swallowed (`except: pass`) and the scan continues. -/
def scan_record : List (String × String) → Date → Date
  | [], tc => tc
  | (k, v) :: rest, tc =>
    scan_record rest
      (if k = "_id" then
        match oid_generation_time v with
        | some d => d
        | none => tc
      else if k = "created_at" then
        match dateutil_parse v with
        | some d => d
        | none => tc
      else tc)

/-- Python `f'{x}'` on an optional string: `None` formats as `"None"`. -/
def pyStrOpt : Option String → String
  | none => "None"
  | some s => s

/-- `f'{d.year}-{d.month}-{d.day}'` (no zero padding). -/
def dateStr (d : Date) : String :=
  toString d.year ++ "-" ++ toString d.month ++ "-" ++ toString d.day

/-- The `stream_name` f-string of `create_stream_to_record_map`:
`f'{replication_method}::{stream}::{year}-{month}-{day}'`. -/
def mkKey (rm : Option String) (stream : String) (d : Date) : String :=
  pyStrOpt rm ++ "::" ++ stream ++ "::" ++ dateStr d

/-- The per-partition buffer: the `stream_to_record_map` dict, mapping a
partition key to the ordered raw lines appended to it. -/
abbrev StreamMap := List (String × List String)

/-- `add_to_stream_records`: append `line` to the (insertion-ordered) dict
entry for `stream_name`, creating the entry at the end if absent. -/
def add_to_stream_records : StreamMap → String → String → StreamMap
  | [], name, line => [(name, [line])]
  | p :: rest, name, line =>
    if p.1 = name then (p.1, p.2 ++ [line]) :: rest
    else p :: add_to_stream_records rest name line

/-- Exceptions of the per-line processing, as distinguished by the source's
raise sites (all of them are caught alike by `main`'s handlers). -/
inductive PErr where
  | jsonDecode : PErr
  | missingType : PErr
  | missingStream : PErr
  | keyError : PErr
  | persistFail : PErr
deriving DecidableEq, Repr

/-- `persist_state(state, config)`: serializes `state['value']` (a
`KeyError` when the STATE line has no `value` key) to the configured path;
`persistOk = false` models a directory-creation or file-write failure. -/
def persist_state (value : Option StateValue) (persistOk : Bool) : Except PErr Unit :=
  match value with
  | none => .error .keyError
  | some _ => if persistOk = true then .ok () else .error .persistFail

/-- `create_stream_to_record_map(stream_to_record_map, line, state, config)`.
`now` is the `datetime.datetime.now()` observed for this line, `persistOk`
whether a state-file write would succeed.  An exception leaves the caller's
`stream_map`/`state` unchanged (the dict mutation in the RECORD branch is
the branch's last statement, so no exception can follow it). -/
def create_stream_to_record_map (m : StreamMap) (line : InputLine) (state : TgtState)
    (config : Config) (now : Date) (persistOk : Bool) :
    Except PErr (StreamMap × TgtState) :=
  match line.parsed with
  | none => .error .jsonDecode
  | some json_line =>
    match json_line.type with
    | none => .error .missingType
    | some t =>
      let afterRecord : Except PErr StreamMap :=
        if t = "RECORD" then
          match json_line.stream with
          | none => .error .missingStream
          | some stream =>
            match state.value? with
            | none => .error .keyError
            | some sv =>
              let replication_method := get_bookmark sv stream "replication_method"
              if replication_method = some "FULL_TABLE" then
                match json_line.record with
                | none => .error .keyError
                | some rec =>
                  .ok (add_to_stream_records m
                        (mkKey replication_method stream (scan_record rec now)) line.raw)
              else
                .ok (add_to_stream_records m (mkKey replication_method stream now) line.raw)
        else .ok m
      match afterRecord with
      | .error e => .error e
      | .ok m' =>
        if t = "STATE" ∧ config.state_file_path.isSome = true then
          match persist_state json_line.value persistOk with
          | .error e => .error e
          | .ok _ => .ok (m', .line json_line.value)
        else .ok (m', state)

/-- One iteration of `main`'s ingestion loop body around
`create_stream_to_record_map`: the bare `except` keeps the old
`stream_map` and `state` on any per-line exception. -/
def step (config : Config) (persistOk : Bool) (p : StreamMap × TgtState)
    (ld : InputLine × Date) : StreamMap × TgtState :=
  match create_stream_to_record_map p.1 ld.1 p.2 config ld.2 persistOk with
  | .ok r => r
  | .error _ => p

/-- The partition key a line resolves to, if processing it appends its raw
text to a buffer (`none` for non-RECORD lines and for RECORD lines whose
processing raises).  Mirrors the RECORD branch of
`create_stream_to_record_map`. -/
def line_key (line : InputLine) (state : TgtState) (now : Date) : Option String :=
  match line.parsed with
  | none => none
  | some j =>
    match j.type with
    | none => none
    | some t =>
      if t = "RECORD" then
        match j.stream with
        | none => none
        | some stream =>
          match state.value? with
          | none => none
          | some sv =>
            let rm := get_bookmark sv stream "replication_method"
            if rm = some "FULL_TABLE" then
              match j.record with
              | none => none
              | some rec => some (mkKey rm stream (scan_record rec now))
            else some (mkKey rm stream now)
      else none

/-- The state the caller of `create_stream_to_record_map` holds after
processing one line (unchanged on any exception, replaced wholesale by a
successfully persisted STATE line). -/
def state_step (state : TgtState) (line : InputLine) (config : Config)
    (persistOk : Bool) : TgtState :=
  match line.parsed with
  | none => state
  | some j =>
    match j.type with
    | none => state
    | some t =>
      if t = "RECORD" then state
      else if t = "STATE" ∧ config.state_file_path.isSome = true then
        match persist_state j.value persistOk with
        | .ok _ => .line j.value
        | .error _ => state
      else state

/-- The per-line trace of a run: each raw line paired with the partition
key it resolved to (under the state current when it was processed), in
input order. -/
def key_trace (config : Config) (persistOk : Bool) :
    TgtState → List (InputLine × Date) → List (String × Option String)
  | _, [] => []
  | st, (ln, d) :: rest =>
    (ln.raw, line_key ln st d) ::
      key_trace config persistOk (state_step st ln config persistOk) rest

/-- The raw lines of a trace that resolved to partition key `k`, in order. -/
def partition_lines (tr : List (String × Option String)) (k : String) : List String :=
  tr.filterMap (fun p => if p.2 = some k then some p.1 else none)

/-- Buffer contents under key `k` (the empty list when `k` is absent). -/
def mapLookup : StreamMap → String → List String
  | [], _ => []
  | p :: rest, k => if p.1 = k then p.2 else mapLookup rest k

/-- Buffer entry under key `k`, distinguishing absence from emptiness. -/
def mapFind : StreamMap → String → Option (List String)
  | [], _ => none
  | p :: rest, k => if p.1 = k then some p.2 else mapFind rest k

/-- Day count of a month (proleptic Gregorian), as validated by Python's
`datetime` constructor inside `strptime`. -/
def days_in_month (y m : Nat) : Nat :=
  if m = 2 then (if y % 4 = 0 ∧ (y % 100 ≠ 0 ∨ y % 400 = 0) then 29 else 28)
  else if m = 4 ∨ m = 6 ∨ m = 9 ∨ m = 11 then 30 else 31

/-- `datetime.datetime.strptime(s, '%Y-%m-%d')`: `%Y` matches exactly four
digits, `%m`/`%d` one or two digits (1-12 / 1-31, zero-padded or not), and
the `datetime` constructor then checks `1 <= year` and that the day fits
the month.  Any mismatch raises `ValueError`, modelled as `none`. -/
def strptime_Ymd (s : String) : Option Date :=
  match splitOnDash s.toList with
  | [ys, ms, ds] =>
    if ys.length = 4 ∧ ys.all Char.isDigit = true
        ∧ ms ≠ [] ∧ ms.length ≤ 2 ∧ ms.all Char.isDigit = true
        ∧ ds ≠ [] ∧ ds.length ≤ 2 ∧ ds.all Char.isDigit = true then
      let y := digitsToNat ys
      let m := digitsToNat ms
      let d := digitsToNat ds
      if 1 ≤ y ∧ 1 ≤ m ∧ m ≤ 12 ∧ 1 ≤ d ∧ d ≤ days_in_month y m then
        some ⟨y, m, d⟩
      else none
    else none
  | _ => none

/-- The S3 object key `upload_to_s3` computes for one staging file `f`
(named by its partition key): split on `::` into replication method,
collection and date, re-parse the date, and join the
`source=/collection=/year=/month=/day=/<file>.json` segments; LOG_BASED
collections get a `minute second microsecond` suffix from the time of the
flush.  `none` models the `ValueError` of a failed unpack or `strptime`. -/
def s3_key (f : String) (config : Config) (t : Time) : Option String :=
  match (splitOnColons f.toList).map (fun cs => String.mk cs) with
  | [replication_method, source, created] =>
    match strptime_Ymd created with
    | none => none
    | some dt =>
      let file_name :=
        if replication_method = "LOG_BASED" then
          source ++ "_" ++ toString t.minute ++ toString t.second ++ toString t.microsecond
        else source
      some ("source=" ++ config.source
        ++ "/collection=" ++ source
        ++ "/year=" ++ toString dt.year
        ++ "/month=" ++ toString dt.month
        ++ "/day=" ++ toString dt.day
        ++ "/" ++ file_name ++ ".json")
  | _ => none

/-- The upload loop of `upload_to_s3`, over the staging files in listing
order.  `uploadOk` tells whether `s3.upload_file` succeeds for a given
staging file; the accumulator collects the S3 keys of the objects actually
created.  The loop has no per-file handler: a key-computation or upload
exception aborts it, leaving the remaining files un-uploaded (the Boolean
result records whether the loop finished without raising). -/
def upload_to_s3 (config : Config) (t : Time) (uploadOk : String → Bool) :
    List String → List String → List String × Bool
  | acc, [] => (acc, true)
  | acc, f :: rest =>
    match s3_key f config t with
    | none => (acc, false)
    | some key =>
      if uploadOk f = true then upload_to_s3 config t uploadOk (acc ++ [key]) rest
      else (acc, false)

/-- Outcome of one `flush(stream_map, tmp_path, config, s3)` call:
the staging files written by `persist_stream_map` (name and content),
the S3 keys uploaded, whether `delete_tmp_dir` ran, and whether the call
returned without raising. -/
structure FlushResult where
  staged : List (String × String)
  uploaded : List String
  tmp_deleted : Bool
  ok : Bool
deriving DecidableEq, Repr

/-- `flush`: `persist_stream_map` writes one staging file per partition
(the partition's lines concatenated, via `save_and_upload_file`), then
`upload_to_s3` runs over them, and `delete_tmp_dir` removes the staging
directory — but only when `upload_to_s3` returned instead of raising,
since an exception propagates past the delete.  (Staging writes themselves
are modelled as succeeding; `os.listdir` order is modelled as creation
order.) -/
def flush (m : StreamMap) (config : Config) (t : Time) (uploadOk : String → Bool) :
    FlushResult :=
  let staged := m.map (fun p => (p.1, String.join p.2))
  let r := upload_to_s3 config t uploadOk [] (staged.map (fun p => p.1))
  ⟨staged, r.1, r.2, r.2⟩

/-- What a whole `main` run leaves behind: the flush outcomes in order,
the ingestion state at the end, whether the outer bare `except` fired
(aborting the rest of the run), and the process exit status. -/
structure MainResult where
  flushes : List FlushResult
  final_map : StreamMap
  final_state : TgtState
  aborted : Bool
  exit_code : Nat

/-- The ingestion loop of `main`: per line, add `sys.getsizeof(line)`
(modelled by `lineSize`) to the byte counter, process the line with the
per-line handler, and flush and reset when the counter exceeds 10000000;
after the last line, flush once more.  A flush exception is caught by the
outer bare `except`, which abandons the rest of the input and returns from
`main` normally — so the exit status is 0 on every path.  `ftime` gives
the wall-clock time of the n-th flush. -/
def main_loop (config : Config) (persistOk : Bool) (uploadOk : String → Bool)
    (lineSize : String → Nat) (ftime : Nat → Time) :
    List (InputLine × Date) → Nat → StreamMap → TgtState → List FlushResult → MainResult
  | [], _, m, st, fs =>
    let fr := flush m config (ftime fs.length) uploadOk
    ⟨fs ++ [fr], m, st, !fr.ok, 0⟩
  | (ln, d) :: rest, bytes, m, st, fs =>
    let bytes' := bytes + lineSize ln.raw
    let p := step config persistOk (m, st) (ln, d)
    if bytes' > 10000000 then
      let fr := flush p.1 config (ftime fs.length) uploadOk
      if fr.ok then
        main_loop config persistOk uploadOk lineSize ftime rest 0 [] p.2 (fs ++ [fr])
      else ⟨fs ++ [fr], p.1, p.2, true, 0⟩
    else main_loop config persistOk uploadOk lineSize ftime rest bytes' p.1 p.2 fs

/-- `main` after configuration loading: run the ingestion loop from an
empty buffer and the initial empty state dict. -/
def main_run (config : Config) (persistOk : Bool) (uploadOk : String → Bool)
    (lineSize : String → Nat) (ftime : Nat → Time)
    (lines : List (InputLine × Date)) : MainResult :=
  main_loop config persistOk uploadOk lineSize ftime lines 0 [] .empty []

instance {ε α : Type} [DecidableEq ε] [DecidableEq α] : DecidableEq (Except ε α)
  | .ok a, .ok b =>
    match decEq a b with
    | isTrue h => isTrue (congrArg Except.ok h)
    | isFalse h => isFalse (fun hc => h (Except.ok.inj hc))
  | .error a, .error b =>
    match decEq a b with
    | isTrue h => isTrue (congrArg Except.error h)
    | isFalse h => isFalse (fun hc => h (Except.error.inj hc))
  | .ok _, .error _ => isFalse (fun hc => Except.noConfusion hc)
  | .error _, .ok _ => isFalse (fun hc => Except.noConfusion hc)

/-- A STATE input line (`{"type": "STATE", "value": ...}`). -/
def mkStateLine (raw : String) (v : Option StateValue) : InputLine :=
  ⟨raw, some ⟨some "STATE", none, none, v⟩⟩

/-- A RECORD input line (`{"type": "RECORD", "stream": ..., "record": ...}`). -/
def mkRecordLine (raw stream : String) (rec : List (String × String)) : InputLine :=
  ⟨raw, some ⟨some "RECORD", some stream, some rec, none⟩⟩

/-- The last date yielded by any recognized field of a record: `_id` fields
through the ObjectId decoder, `created_at` fields through the timestamp
parser, unrecognized or unparseable fields yielding nothing. -/
def field_date : String × String → Option Date
  | (k, v) =>
    if k = "_id" then oid_generation_time v
    else if k = "created_at" then dateutil_parse v
    else none

/-- The date of the last field (in payload order) that yields one. -/
def last_field_date : List (String × String) → Option Date
  | [] => none
  | x :: rest =>
    match last_field_date rest with
    | some d => some d
    | none => field_date x

/-- Processing one line through `main`'s per-line handler updates the
buffer exactly at the line's resolved partition key (if any) and the state
exactly as `state_step` says. -/
theorem step_eq (config : Config) (pOk : Bool) (m : StreamMap) (st : TgtState)
    (ln : InputLine) (d : Date) :
    step config pOk (m, st) (ln, d) =
      ((match line_key ln st d with
        | some k => add_to_stream_records m k ln.raw
        | none => m),
       state_step st ln config pOk) := by
  rcases ln with ⟨raw, _ | ⟨_ | t, s?, r?, v?⟩⟩
  · rfl
  · rfl
  by_cases hR : t = "RECORD"
  · subst hR
    rcases s? with _ | stream
    · rfl
    rcases st with _ | (_ | sv)
    · rfl
    · rfl
    by_cases hF : get_bookmark sv stream "replication_method" = some "FULL_TABLE"
    · rcases r? with _ | rec <;>
        simp [step, create_stream_to_record_map, line_key, state_step, hF, TgtState.value?]
    · simp [step, create_stream_to_record_map, line_key, state_step, hF, TgtState.value?]
  · by_cases hS : t = "STATE"
    · subst hS
      by_cases hP : config.state_file_path.isSome = true
      · rcases v? with _ | sv
        · simp [step, create_stream_to_record_map, line_key, state_step, persist_state, hP]
        · cases pOk <;>
            simp [step, create_stream_to_record_map, line_key, state_step, persist_state, hP]
      · simp [step, create_stream_to_record_map, line_key, state_step, hP]
    · simp [step, create_stream_to_record_map, line_key, state_step, hR, hS]

/-- Appending a line to the buffer under key `name` extends exactly the
`name` bucket and leaves every other bucket unchanged. -/
theorem mapLookup_add (m : StreamMap) (name k l : String) :
    mapLookup (add_to_stream_records m name l) k =
      if name = k then mapLookup m k ++ [l] else mapLookup m k := by
  induction m with
  | nil => by_cases h : name = k <;> simp [add_to_stream_records, mapLookup, h]
  | cons p rest ih =>
    by_cases h1 : p.1 = name
    · by_cases h2 : name = k <;>
        simp [add_to_stream_records, mapLookup, h1, h2]
    · by_cases h3 : p.1 = k
      · have h4 : ¬ name = k := fun hc => h1 (h3.trans hc.symm)
        have h5 : ¬ k = name := fun hc => h4 hc.symm
        simp [add_to_stream_records, mapLookup, h1, h3, h4, h5]
      · simp [add_to_stream_records, mapLookup, h1, h3, ih]

/-- Running the per-line loop over any input leaves, in each partition
bucket, the original contents followed by the raw lines that resolved to
that key, in input order. -/
theorem fold_lookup (config : Config) (pOk : Bool) :
    ∀ (lines : List (InputLine × Date)) (m : StreamMap) (st : TgtState) (k : String),
    mapLookup ((lines.foldl (step config pOk) (m, st)).1) k
      = mapLookup m k ++ partition_lines (key_trace config pOk st lines) k := by
  intro lines
  induction lines with
  | nil => intro m st k; simp [key_trace, partition_lines]
  | cons p rest ih =>
    intro m st k
    obtain ⟨ln, d⟩ := p
    rw [List.foldl_cons, step_eq, key_trace]
    cases hk : line_key ln st d with
    | none =>
      simp only [hk, ih, partition_lines, List.filterMap_cons]
      simp
    | some k' =>
      simp only [hk, ih, partition_lines, List.filterMap_cons]
      by_cases hkk : k' = k
      · subst hkk
        simp [mapLookup_add]
      · simp [mapLookup_add, hkk]


/-- Staging wrote one file per partition: looking a key up among the staged
files returns exactly that partition's lines concatenated. -/
theorem staged_lookup (M : StreamMap) (k : String) :
    alist_get (M.map (fun p => (p.1, String.join p.2))) k
      = (mapFind M k).map String.join := by
  induction M with
  | nil => rfl
  | cons p rest ih =>
    by_cases h : p.1 = k <;> simp [alist_get, mapFind, h, ih]

/-- The upload loop returns (rather than raising) exactly when every file's
key computation and upload succeed. -/
theorem upload_ok_iff (config : Config) (t : Time) (ok : String → Bool) :
    ∀ (fs : List String) (acc : List String),
    (upload_to_s3 config t ok acc fs).2 = true
      ↔ ∀ f ∈ fs, (s3_key f config t).isSome = true ∧ ok f = true := by
  intro fs
  induction fs with
  | nil => intro acc; simp [upload_to_s3]
  | cons f rest ih =>
    intro acc
    cases hk : s3_key f config t with
    | none => simp [upload_to_s3, hk]
    | some key =>
      cases ho : ok f with
      | false => simp [upload_to_s3, hk, ho]
      | true => simp [upload_to_s3, hk, ho, ih]

/-- When every file before `fk` uploads fine and `fk`'s upload raises, the
loop stops there: exactly the earlier files' objects exist, and the
exception propagates (`false`). -/
theorem upload_prefix (config : Config) (t : Time) (ok : String → Bool)
    (fk : String) (fs2 : List String) (hfail : ok fk = false) :
    ∀ (fs1 : List String) (acc : List String),
    (∀ f ∈ fs1, (s3_key f config t).isSome = true ∧ ok f = true) →
    upload_to_s3 config t ok acc (fs1 ++ fk :: fs2)
      = (acc ++ fs1.filterMap (fun f => s3_key f config t), false) := by
  intro fs1
  induction fs1 with
  | nil =>
    intro acc _
    cases hk : s3_key fk config t <;> simp [upload_to_s3, hk, hfail]
  | cons f rest ih =>
    intro acc hgood
    have hf := hgood f (by simp)
    cases hk : s3_key f config t with
    | none => rw [hk] at hf; simp at hf
    | some key =>
      simp only [List.cons_append, upload_to_s3, hk, hf.2, if_true, List.append_eq]
      rw [ih (acc ++ [key]) (fun g hg => hgood g (by simp [hg]))]
      simp [List.filterMap_cons, hk]

/-- Every object the upload loop created has the key `upload_to_s3`
computes for one of the staging files. -/
theorem upload_mem (config : Config) (t : Time) (ok : String → Bool) :
    ∀ (fs : List String) (acc : List String) (key : String),
    key ∈ (upload_to_s3 config t ok acc fs).1 →
    key ∈ acc ∨ ∃ f, f ∈ fs ∧ s3_key f config t = some key := by
  intro fs
  induction fs with
  | nil => intro acc key h; exact Or.inl (by simpa [upload_to_s3] using h)
  | cons f rest ih =>
    intro acc key h
    cases hk : s3_key f config t with
    | none =>
      simp only [upload_to_s3, hk] at h
      exact Or.inl h
    | some key2 =>
      cases ho : ok f with
      | false =>
        simp only [upload_to_s3, hk, ho] at h
        exact Or.inl h
      | true =>
        simp only [upload_to_s3, hk, ho, if_pos rfl] at h
        rcases ih (acc ++ [key2]) key h with hmem | ⟨g, hg, hgk⟩
        · rcases List.mem_append.1 hmem with h1 | h2
          · exact Or.inl h1
          · right
            refine ⟨f, by simp, ?_⟩
            simp only [List.mem_singleton] at h2
            rw [hk, h2]
        · exact Or.inr ⟨g, by simp [hg], hgk⟩

/-- `main` returns normally on every path: per-line exceptions are logged
and skipped, and a flush exception only makes the outer bare `except` log
and fall through, so the process exit status is always 0. -/
theorem main_exit_zero (config : Config) (pOk : Bool) (uploadOk : String → Bool)
    (lineSize : String → Nat) (ftime : Nat → Time) :
    ∀ (lines : List (InputLine × Date)) (bytes : Nat) (m : StreamMap)
      (st : TgtState) (fs : List FlushResult),
    (main_loop config pOk uploadOk lineSize ftime lines bytes m st fs).exit_code = 0 := by
  intro lines
  induction lines with
  | nil => intro bytes m st fs; rfl
  | cons p rest ih =>
    intro bytes m st fs
    obtain ⟨ln, d⟩ := p
    simp only [main_loop]
    split
    · split
      · exact ih _ _ _ _
      · rfl
    · exact ih _ _ _ _


/-- No RECORD line can resolve to a partition key while the state dict is
still the initial `{}`: the `state['value']` lookup raises first. -/
theorem line_key_empty (ln : InputLine) (d : Date) :
    line_key ln TgtState.empty d = none := by
  rcases ln with ⟨raw, _ | ⟨_ | t, s?, r?, v?⟩⟩
  · rfl
  · rfl
  by_cases hR : t = "RECORD"
  · subst hR
    rcases s? with _ | stream <;> simp [line_key, TgtState.value?]
  · simp [line_key, hR]

/-- Without a configured `state_file_path`, no line ever changes the held
state (the STATE branch is guarded by `"state_file_path" in config`). -/
theorem state_step_nopath (st : TgtState) (ln : InputLine) (config : Config)
    (pOk : Bool) (h : config.state_file_path = none) :
    state_step st ln config pOk = st := by
  rcases ln with ⟨raw, _ | ⟨_ | t, s?, r?, v?⟩⟩
  · rfl
  · rfl
  by_cases hR : t = "RECORD"
  · simp [state_step, hR]
  · simp [state_step, hR, h]

/-- Without a configured `state_file_path`, the whole ingestion fold is
inert: the state stays `{}`, so every RECORD line raises and is dropped,
and the buffer stays empty. -/
theorem fold_empty_nopath (config : Config) (pOk : Bool)
    (h : config.state_file_path = none) :
    ∀ (lines : List (InputLine × Date)),
    lines.foldl (step config pOk) (([] : StreamMap), TgtState.empty)
      = (([] : StreamMap), TgtState.empty) := by
  intro lines
  induction lines with
  | nil => rfl
  | cons p rest ih =>
    obtain ⟨ln, d⟩ := p
    rw [List.foldl_cons, step_eq, line_key_empty, state_step_nopath _ _ _ _ h]
    exact ih

/-- `create_stream_to_record_map` never reads
`config['partition_on_time_created']`: its result is unchanged under any
value of that flag. -/
theorem create_flag_irrel (m : StreamMap) (line : InputLine) (st : TgtState)
    (config : Config) (now : Date) (pOk : Bool) (b : Option Bool) :
    create_stream_to_record_map m line st
        { config with partition_on_time_created := b } now pOk
      = create_stream_to_record_map m line st config now pOk := by
  cases config
  rfl


/-- C1, counterexample.  The claim says field-based date extraction applies
if and only if `partition_on_time_created` is set, and that with the flag
unset the partition key uses the wall-clock date.  In the code the flag is
never read: with the flag unset (`none`), a FULL_TABLE record whose `_id`
is the well-known ObjectId `507f1f77bcf86cd799439011` (generation time
2012-10-17) is still keyed by the embedded date 2012-10-17, not by the
wall-clock date 2024-1-2. -/
theorem C1_counterexample :
    create_stream_to_record_map []
        (mkRecordLine "raw1" "orders" [("_id", "507f1f77bcf86cd799439011")])
        (TgtState.line (some ⟨[("orders", [("replication_method", "FULL_TABLE")])]⟩))
        ⟨"acme", "b1", none, none⟩ ⟨2024, 1, 2⟩ true
      = .ok ([("FULL_TABLE::orders::2012-10-17", ["raw1"])],
             TgtState.line (some ⟨[("orders", [("replication_method", "FULL_TABLE")])]⟩))
    ∧ ("FULL_TABLE::orders::2012-10-17" : String) ≠ "FULL_TABLE::orders::2024-1-2" :=
  ⟨by decide, by decide⟩

/-- C1, amended.  For a RECORD envelope of a stream whose bookmarked
replication method is FULL_TABLE, the field-based date extraction always
applies, whatever value (or absence) `partition_on_time_created` has: the
partition key is built from the date the field scan yields. -/
theorem C1_theorem (m : StreamMap) (raw stream : String) (rec : List (String × String))
    (sv : StateValue) (config : Config) (now : Date) (pOk : Bool) (b : Option Bool)
    (h : get_bookmark sv stream "replication_method" = some "FULL_TABLE") :
    create_stream_to_record_map m (mkRecordLine raw stream rec)
        (TgtState.line (some sv)) { config with partition_on_time_created := b } now pOk
      = .ok (add_to_stream_records m
               (mkKey (some "FULL_TABLE") stream (scan_record rec now)) raw,
             TgtState.line (some sv)) := by
  rw [create_flag_irrel]
  simp [create_stream_to_record_map, mkRecordLine, TgtState.value?, h]

/-- C1, witness: `C1_theorem` at a concrete FULL_TABLE record. -/
theorem C1_witness :
    get_bookmark ⟨[("orders", [("replication_method", "FULL_TABLE")])]⟩ "orders"
        "replication_method" = some "FULL_TABLE"
    ∧ create_stream_to_record_map []
        (mkRecordLine "raw1" "orders" [("_id", "507f1f77bcf86cd799439011")])
        (TgtState.line (some ⟨[("orders", [("replication_method", "FULL_TABLE")])]⟩))
        { (⟨"acme", "b1", none, none⟩ : Config) with partition_on_time_created := none }
        ⟨2024, 1, 2⟩ true
      = .ok (add_to_stream_records []
               (mkKey (some "FULL_TABLE") "orders"
                 (scan_record [("_id", "507f1f77bcf86cd799439011")] ⟨2024, 1, 2⟩)) "raw1",
             TgtState.line (some ⟨[("orders", [("replication_method", "FULL_TABLE")])]⟩)) :=
  ⟨by decide, C1_theorem [] "raw1" "orders" _ _ _ _ true none (by decide)⟩

/-- C2, counterexample.  The claim says a checkpoint-persist failure is
escalated as fatal and the exit status distinguishes it from upload
failures.  In the code the per-line bare `except` swallows it: a run whose
only STATE line fails to persist ends with exit status 0, un-aborted, the
state still `{}`; and a run whose flush upload fails also ends with exit
status 0 — the two cases are indistinguishable by exit status. -/
theorem C2_counterexample :
    (main_run ⟨"acme", "b1", some "/s.json", none⟩ false (fun _ => true) (fun _ => 1)
        (fun _ => ⟨0, 0, 0⟩)
        [(mkStateLine "sraw" (some ⟨[("orders", [("replication_method", "FULL_TABLE")])]⟩),
          ⟨2020, 1, 1⟩)]).exit_code = 0
    ∧ (main_run ⟨"acme", "b1", some "/s.json", none⟩ false (fun _ => true) (fun _ => 1)
        (fun _ => ⟨0, 0, 0⟩)
        [(mkStateLine "sraw" (some ⟨[("orders", [("replication_method", "FULL_TABLE")])]⟩),
          ⟨2020, 1, 1⟩)]).final_state = TgtState.empty
    ∧ (main_run ⟨"acme", "b1", some "/s.json", none⟩ false (fun _ => true) (fun _ => 1)
        (fun _ => ⟨0, 0, 0⟩)
        [(mkStateLine "sraw" (some ⟨[("orders", [("replication_method", "FULL_TABLE")])]⟩),
          ⟨2020, 1, 1⟩)]).aborted = false
    ∧ (main_run ⟨"acme", "b1", some "/s.json", none⟩ true (fun _ => false) (fun _ => 1)
        (fun _ => ⟨0, 0, 0⟩)
        [(mkStateLine "sraw" (some ⟨[("orders", [("replication_method", "FULL_TABLE")])]⟩),
          ⟨2020, 1, 1⟩),
         (mkRecordLine "rraw" "orders" [], ⟨2020, 1, 2⟩)]).aborted = true
    ∧ (main_run ⟨"acme", "b1", some "/s.json", none⟩ true (fun _ => false) (fun _ => 1)
        (fun _ => ⟨0, 0, 0⟩)
        [(mkStateLine "sraw" (some ⟨[("orders", [("replication_method", "FULL_TABLE")])]⟩),
          ⟨2020, 1, 1⟩),
         (mkRecordLine "rraw" "orders" [], ⟨2020, 1, 2⟩)]).exit_code = 0 :=
  ⟨by decide, by decide, by decide, by decide, by decide⟩

/-- C2, amended.  A failed checkpoint write is swallowed by the per-line
handler — the caller keeps the previous buffer and checkpoint and the run
continues — and `main` exits with status 0 on every input whatsoever, so
no exit status can distinguish checkpoint-persist failures from anything
else. -/
theorem C2_theorem (config : Config) (pOk : Bool) (uploadOk : String → Bool)
    (lineSize : String → Nat) (ftime : Nat → Time) (lines : List (InputLine × Date))
    (m : StreamMap) (st : TgtState) (raw : String) (v : Option StateValue) (d : Date) :
    (main_run config pOk uploadOk lineSize ftime lines).exit_code = 0
    ∧ step config false (m, st) (mkStateLine raw v, d) = (m, st) := by
  constructor
  · exact main_exit_zero config pOk uploadOk lineSize ftime lines 0 [] .empty []
  · rw [step_eq]
    have h1 : line_key (mkStateLine raw v) st d = none := by
      simp [line_key, mkStateLine]
    have h2 : state_step st (mkStateLine raw v) config false = st := by
      by_cases hP : config.state_file_path.isSome = true
      · rcases v with _ | sv <;> simp [state_step, mkStateLine, persist_state, hP]
      · simp [state_step, mkStateLine, hP]
    rw [h1, h2]

/-- C3, counterexample.  The claim says a failed upload of partition A does
not prevent sibling partition B's object from being created in the same
cycle.  In the code the upload loop has no per-file handler: with
partitions A then B where only A's upload fails (B's would succeed), the
flush uploads nothing at all — B's object is never created. -/
theorem C3_counterexample :
    (fun f => f == "FULL_TABLE::B::2020-1-1") "FULL_TABLE::B::2020-1-1" = true
    ∧ (flush [("FULL_TABLE::A::2020-1-1", ["x"]), ("FULL_TABLE::B::2020-1-1", ["y"])]
         ⟨"acme", "b1", none, none⟩ ⟨0, 0, 0⟩
         (fun f => f == "FULL_TABLE::B::2020-1-1")).uploaded = []
    ∧ "source=acme/collection=B/year=2020/month=1/day=1/B.json"
        ∉ (flush [("FULL_TABLE::A::2020-1-1", ["x"]), ("FULL_TABLE::B::2020-1-1", ["y"])]
             ⟨"acme", "b1", none, none⟩ ⟨0, 0, 0⟩
             (fun f => f == "FULL_TABLE::B::2020-1-1")).uploaded :=
  ⟨by decide, by decide, by decide⟩

/-- C3, amended.  An upload failure aborts the flush cycle at that
partition: exactly the partitions listed before the failing one are
uploaded, the ones after it are not, and the exception escapes `flush`
(no per-partition aggregation takes place). -/
theorem C3_theorem (config : Config) (t : Time) (ok : String → Bool)
    (m1 m2 : StreamMap) (fk : String) (ls : List String)
    (hgood : ∀ p ∈ m1, (s3_key p.1 config t).isSome = true ∧ ok p.1 = true)
    (hfail : ok fk = false) :
    (flush (m1 ++ (fk, ls) :: m2) config t ok).uploaded
        = m1.filterMap (fun p => s3_key p.1 config t)
    ∧ (flush (m1 ++ (fk, ls) :: m2) config t ok).ok = false := by
  have hnames : (((m1 ++ (fk, ls) :: m2).map (fun p => (p.1, String.join p.2))).map
      (fun q => q.1)) = m1.map (fun p => p.1) ++ fk :: m2.map (fun p => p.1) := by
    simp only [List.map_append, List.map_cons, List.map_map]
    rfl
  have hgood2 : ∀ f ∈ m1.map (fun p => p.1),
      (s3_key f config t).isSome = true ∧ ok f = true := by
    intro f hf
    rcases List.mem_map.1 hf with ⟨p, hp, rfl⟩
    exact hgood p hp
  have hmain := upload_prefix config t ok fk (m2.map (fun p => p.1)) hfail
      (m1.map (fun p => p.1)) [] hgood2
  constructor
  · show (upload_to_s3 config t ok []
        (((m1 ++ (fk, ls) :: m2).map (fun p => (p.1, String.join p.2))).map
          (fun p => p.1))).1 = _
    rw [hnames, hmain]
    simp only [List.nil_append, List.filterMap_map]
    rfl
  · show (upload_to_s3 config t ok []
        (((m1 ++ (fk, ls) :: m2).map (fun p => (p.1, String.join p.2))).map
          (fun p => p.1))).2 = false
    rw [hnames, hmain]

/-- C3, witness: `C3_theorem` with partition A before failing partition B. -/
theorem C3_witness :
    (∀ p ∈ ([("FULL_TABLE::A::2020-1-1", ["x"])] : StreamMap),
      (s3_key p.1 ⟨"acme", "b1", none, none⟩ ⟨0, 0, 0⟩).isSome = true
        ∧ (fun f => f == "FULL_TABLE::A::2020-1-1") p.1 = true)
    ∧ ((fun f => f == "FULL_TABLE::A::2020-1-1") "FULL_TABLE::B::2020-1-1" = false)
    ∧ ((flush ([("FULL_TABLE::A::2020-1-1", ["x"])] ++ ("FULL_TABLE::B::2020-1-1", ["y"]) :: [])
          ⟨"acme", "b1", none, none⟩ ⟨0, 0, 0⟩
          (fun f => f == "FULL_TABLE::A::2020-1-1")).uploaded
        = ([("FULL_TABLE::A::2020-1-1", ["x"])] : StreamMap).filterMap
            (fun p => s3_key p.1 ⟨"acme", "b1", none, none⟩ ⟨0, 0, 0⟩)
      ∧ (flush ([("FULL_TABLE::A::2020-1-1", ["x"])] ++ ("FULL_TABLE::B::2020-1-1", ["y"]) :: [])
          ⟨"acme", "b1", none, none⟩ ⟨0, 0, 0⟩
          (fun f => f == "FULL_TABLE::A::2020-1-1")).ok = false) :=
  ⟨by decide, by decide,
   C3_theorem ⟨"acme", "b1", none, none⟩ ⟨0, 0, 0⟩ (fun f => f == "FULL_TABLE::A::2020-1-1")
     [("FULL_TABLE::A::2020-1-1", ["x"])] [] "FULL_TABLE::B::2020-1-1" ["y"]
     (by decide) (by decide)⟩

/-- C4, counterexample.  The claim says all staging objects are deleted at
the end of the cycle whether or not uploads succeeded.  In the code
`delete_tmp_dir` runs only after `upload_to_s3` returns: when an upload
raises, the staging directory is not deleted. -/
theorem C4_counterexample :
    (flush [("FULL_TABLE::A::2020-1-1", ["x"]), ("FULL_TABLE::B::2020-1-1", ["y"])]
        ⟨"acme", "b1", none, none⟩ ⟨0, 0, 0⟩
        (fun f => f == "FULL_TABLE::B::2020-1-1")).tmp_deleted = false := by
  decide

/-- C4, amended.  The staging directory of a flush cycle is deleted exactly
when every partition's key computation and upload succeeded; any failure
makes the upload step raise past the delete, leaving the staging objects
behind. -/
theorem C4_theorem (M : StreamMap) (config : Config) (t : Time) (ok : String → Bool) :
    (flush M config t ok).tmp_deleted = true
      ↔ ∀ p ∈ M, (s3_key p.1 config t).isSome = true ∧ ok p.1 = true := by
  have hnames : ((M.map (fun p => (p.1, String.join p.2))).map (fun q => q.1))
      = M.map (fun p => p.1) := by
    simp only [List.map_map]
    rfl
  show (upload_to_s3 config t ok []
      ((M.map (fun p => (p.1, String.join p.2))).map (fun p => p.1))).2 = true ↔ _
  rw [hnames, upload_ok_iff]
  constructor
  · intro h p hp
    exact h p.1 (List.mem_map.2 ⟨p, hp, rfl⟩)
  · intro h f hf
    rcases List.mem_map.1 hf with ⟨p, hp, rfl⟩
    exact h p hp

/-- C5, counterexample.  The claim says the partition key combines exactly
the stream name and the resolved date, as `stream::YYYY-M-D`.  In the code
the key also carries the replication method in front: a LOG_BASED record
of stream `orders` resolved on 2020-1-2 is keyed
`LOG_BASED::orders::2020-1-2`, which differs from the claimed
`orders::2020-1-2`. -/
theorem C5_counterexample :
    create_stream_to_record_map []
        (⟨"raw2", some ⟨some "RECORD", some "orders", none, none⟩⟩ : InputLine)
        (TgtState.line (some ⟨[("orders", [("replication_method", "LOG_BASED")])]⟩))
        ⟨"acme", "b1", none, none⟩ ⟨2020, 1, 2⟩ true
      = .ok ([("LOG_BASED::orders::2020-1-2", ["raw2"])],
             TgtState.line (some ⟨[("orders", [("replication_method", "LOG_BASED")])]⟩))
    ∧ ("LOG_BASED::orders::2020-1-2" : String) ≠ "orders::2020-1-2" :=
  ⟨by decide, by decide⟩

/-- C5, amended.  Every successfully buffered RECORD line is keyed
`<replication method>::<stream>::<Y-M-D>` (no zero padding; a missing
replication method formats as `None`), the date being the field-scan date
for FULL_TABLE streams and the wall-clock date otherwise — so two records
agreeing on stream, replication method and resolved date share a key. -/
theorem C5_theorem (m : StreamMap) (raw stream : String) (rec : List (String × String))
    (sv : StateValue) (config : Config) (now : Date) (pOk : Bool) :
    create_stream_to_record_map m (mkRecordLine raw stream rec)
        (TgtState.line (some sv)) config now pOk
      = .ok (add_to_stream_records m
               (pyStrOpt (get_bookmark sv stream "replication_method") ++ "::" ++ stream
                 ++ "::" ++ dateStr
                      (if get_bookmark sv stream "replication_method" = some "FULL_TABLE"
                       then scan_record rec now else now))
               raw,
             TgtState.line (some sv)) := by
  by_cases hF : get_bookmark sv stream "replication_method" = some "FULL_TABLE" <;>
    simp [create_stream_to_record_map, mkRecordLine, TgtState.value?, mkKey, hF]

/-- C6, counterexample.  The claim says the field scan stops at the first
field yielding a date.  In the code the scan continues and later matches
overwrite earlier ones: with an `_id` yielding 2012-10-17 followed by a
`created_at` yielding 2021-5-6, the result is 2021-5-6, not the first
field's date. -/
theorem C6_counterexample :
    oid_generation_time "507f1f77bcf86cd799439011" = some ⟨2012, 10, 17⟩
    ∧ scan_record [("_id", "507f1f77bcf86cd799439011"), ("created_at", "2021-5-6")]
        ⟨1999, 1, 1⟩ = ⟨2021, 5, 6⟩
    ∧ (⟨2021, 5, 6⟩ : Date) ≠ ⟨2012, 10, 17⟩ :=
  ⟨by decide, by decide, by decide⟩

/-- C6, amended.  The scan walks all fields in payload order, swallowing
parse failures; the date of the last field that yields one wins, and when
no field yields a date the wall-clock date passed in is used. -/
theorem C6_theorem (l : List (String × String)) (now : Date) :
    scan_record l now = (last_field_date l).getD now := by
  induction l generalizing now with
  | nil => rfl
  | cons x rest ih =>
    obtain ⟨k, v⟩ := x
    rw [scan_record, ih]
    cases hl : last_field_date rest with
    | some d => simp [last_field_date, hl]
    | none =>
      simp only [last_field_date, hl, Option.getD]
      by_cases h1 : k = "_id"
      · cases ho : oid_generation_time v <;> simp [field_date, h1, ho]
      · by_cases h2 : k = "created_at"
        · cases hd : dateutil_parse v <;> simp [field_date, h1, h2, hd]
        · simp [field_date, h1, h2]

/-- C7, counterexample.  The claim says the in-memory checkpoint is
replaced regardless of whether a persistence location is configured.  In
the code the whole STATE branch is guarded by
`"state_file_path" in config`: without it, observing a STATE envelope
leaves the state `{}`, not the envelope's value. -/
theorem C7_counterexample :
    create_stream_to_record_map []
        (mkStateLine "sraw" (some ⟨[("orders", [("replication_method", "FULL_TABLE")])]⟩))
        TgtState.empty ⟨"acme", "b1", none, none⟩ ⟨2020, 1, 1⟩ true
      = .ok ([], TgtState.empty)
    ∧ TgtState.empty
        ≠ TgtState.line (some ⟨[("orders", [("replication_method", "FULL_TABLE")])]⟩) :=
  ⟨by decide, by decide⟩

/-- C7, amended.  With `state_file_path` configured and persistence
succeeding, STATE envelopes replace the checkpoint wholesale
(last-write-wins: after C1 then C2 the state is exactly C2's); without a
configured path the checkpoint is never updated; and when persistence
fails, the exception prevents the caller from receiving the update, so the
checkpoint also keeps its previous value. -/
theorem C7_theorem (m : StreamMap) (st : TgtState) (config1 config2 : Config)
    (pOk : Bool) (raw1 raw2 : String) (v1 v2 : StateValue) (d1 d2 : Date)
    (h1 : config1.state_file_path.isSome = true) (h2 : config2.state_file_path = none) :
    [(mkStateLine raw1 (some v1), d1), (mkStateLine raw2 (some v2), d2)].foldl
        (step config1 true) (m, st) = (m, TgtState.line (some v2))
    ∧ step config2 pOk (m, st) (mkStateLine raw1 (some v1), d1) = (m, st)
    ∧ step config1 false (m, st) (mkStateLine raw1 (some v1), d1) = (m, st) := by
  have hk : ∀ (raw : String) (v : Option StateValue) (st2 : TgtState) (d : Date),
      line_key (mkStateLine raw v) st2 d = none := by
    intro raw v st2 d
    simp [line_key, mkStateLine]
  have hs1 : ∀ (raw : String) (v : StateValue) (st2 : TgtState),
      state_step st2 (mkStateLine raw (some v)) config1 true = TgtState.line (some v) := by
    intro raw v st2
    simp [state_step, mkStateLine, persist_state, h1]
  refine ⟨?_, ?_, ?_⟩
  · rw [List.foldl_cons, step_eq, hk, hs1, List.foldl_cons, step_eq, hk, hs1,
      List.foldl_nil]
  · rw [step_eq, hk]
    have hs : state_step st (mkStateLine raw1 (some v1)) config2 pOk = st :=
      state_step_nopath st _ config2 pOk h2
    rw [hs]
  · rw [step_eq, hk]
    have hs : state_step st (mkStateLine raw1 (some v1)) config1 false = st := by
      simp [state_step, mkStateLine, persist_state, h1]
    rw [hs]

/-- C7, witness: `C7_theorem` at two concrete STATE envelopes, one config
with a state-file path and one without. -/
theorem C7_witness :
    ((⟨"a", "b", some "/s", none⟩ : Config).state_file_path.isSome = true)
    ∧ ((⟨"a", "b", none, none⟩ : Config).state_file_path = none)
    ∧ ([(mkStateLine "r1" (some ⟨[]⟩), ⟨2020, 1, 1⟩),
        (mkStateLine "r2" (some ⟨[("s", [("k", "v")])]⟩), ⟨2020, 1, 2⟩)].foldl
          (step ⟨"a", "b", some "/s", none⟩ true) ([], TgtState.empty)
        = ([], TgtState.line (some ⟨[("s", [("k", "v")])]⟩))
      ∧ step ⟨"a", "b", none, none⟩ true ([], TgtState.empty)
          (mkStateLine "r1" (some ⟨[]⟩), ⟨2020, 1, 1⟩) = ([], TgtState.empty)
      ∧ step ⟨"a", "b", some "/s", none⟩ false ([], TgtState.empty)
          (mkStateLine "r1" (some ⟨[]⟩), ⟨2020, 1, 1⟩) = ([], TgtState.empty)) :=
  ⟨by decide, by decide,
   C7_theorem [] TgtState.empty ⟨"a", "b", some "/s", none⟩ ⟨"a", "b", none, none⟩ true
     "r1" "r2" ⟨[]⟩ ⟨[("s", [("k", "v")])]⟩ ⟨2020, 1, 1⟩ ⟨2020, 1, 2⟩
     (by decide) (by decide)⟩

/-- C8.  Ordering preservation: after ingesting any input, each partition
buffer holds exactly the raw lines that resolved to its key, as a
subsequence of the input in original order; and each staging object a
flush writes holds exactly its partition's buffered lines concatenated in
that order. -/
theorem C8_theorem (config : Config) (pOk : Bool) (st : TgtState)
    (lines : List (InputLine × Date)) (k : String)
    (M : StreamMap) (t : Time) (ok : String → Bool) :
    mapLookup ((lines.foldl (step config pOk) (([] : StreamMap), st)).1) k
      = partition_lines (key_trace config pOk st lines) k
    ∧ alist_get (flush M config t ok).staged k = (mapFind M k).map String.join := by
  constructor
  · have h := fold_lookup config pOk lines [] st k
    simpa [mapLookup] using h
  · show alist_get (M.map (fun p => (p.1, String.join p.2))) k = _
    exact staged_lookup M k

/-- C9.  Storage object key format: for a staging file named
`<repl>::<source>::<Y-M-D>` (the separator not occurring in the parts and
the date well-formed), the computed key is
`source=<source>/collection=<name>/year=<Y>/month=<M>/day=<D>/<file>.json`
with `<file>` the stable collection name, except under LOG_BASED where a
minute-second-microsecond suffix of the flush time is appended; and every
key a flush uploads is the computed key of one of its staging files. -/
theorem C9_theorem (config : Config) (t : Time) (ok : String → Bool) (M : StreamMap)
    (repl source : String) (d : Date)
    (hsplit : (splitOnColons (repl ++ "::" ++ source ++ "::" ++ dateStr d).toList).map
        (fun cs => String.mk cs) = [repl, source, dateStr d])
    (hdate : strptime_Ymd (dateStr d) = some d) :
    s3_key (repl ++ "::" ++ source ++ "::" ++ dateStr d) config t
      = some ("source=" ++ config.source ++ "/collection=" ++ source
          ++ "/year=" ++ toString d.year ++ "/month=" ++ toString d.month
          ++ "/day=" ++ toString d.day ++ "/"
          ++ (if repl = "LOG_BASED"
              then source ++ "_" ++ toString t.minute ++ toString t.second
                    ++ toString t.microsecond
              else source) ++ ".json")
    ∧ (∀ key ∈ (flush M config t ok).uploaded,
        ∃ f, f ∈ M.map (fun p => p.1) ∧ s3_key f config t = some key) := by
  constructor
  · rw [s3_key, hsplit]
    simp [hdate]
  · intro key hk
    have hnames : ((M.map (fun p => (p.1, String.join p.2))).map (fun q => q.1))
        = M.map (fun p => p.1) := by
      simp only [List.map_map]
      rfl
    have hflush : (flush M config t ok).uploaded
        = (upload_to_s3 config t ok [] (M.map (fun p => p.1))).1 := by
      show (upload_to_s3 config t ok []
          ((M.map (fun p => (p.1, String.join p.2))).map (fun p => p.1))).1 = _
      rw [hnames]
    rw [hflush] at hk
    rcases upload_mem config t ok (M.map (fun p => p.1)) [] key hk with h0 | ⟨f, hf, hfk⟩
    · simp at h0
    · exact ⟨f, hf, hfk⟩

/-- C9, witness: `C9_theorem` at a concrete LOG_BASED partition name and
date. -/
theorem C9_witness :
    ((splitOnColons ("LOG_BASED" ++ "::" ++ "orders" ++ "::" ++ dateStr ⟨2020, 1, 2⟩).toList).map
        (fun cs => String.mk cs) = ["LOG_BASED", "orders", dateStr ⟨2020, 1, 2⟩])
    ∧ (strptime_Ymd (dateStr ⟨2020, 1, 2⟩) = some ⟨2020, 1, 2⟩)
    ∧ (s3_key ("LOG_BASED" ++ "::" ++ "orders" ++ "::" ++ dateStr ⟨2020, 1, 2⟩)
          ⟨"acme", "b1", none, none⟩ ⟨1, 2, 3⟩
        = some ("source=" ++ "acme" ++ "/collection=" ++ "orders"
            ++ "/year=" ++ toString (2020 : Nat) ++ "/month=" ++ toString (1 : Nat)
            ++ "/day=" ++ toString (2 : Nat) ++ "/"
            ++ (if ("LOG_BASED" : String) = "LOG_BASED"
                then "orders" ++ "_" ++ toString (1 : Nat) ++ toString (2 : Nat)
                      ++ toString (3 : Nat)
                else "orders") ++ ".json")
      ∧ (∀ key ∈ (flush [] ⟨"acme", "b1", none, none⟩ ⟨1, 2, 3⟩ (fun _ => true)).uploaded,
          ∃ f, f ∈ ([] : StreamMap).map (fun p => p.1)
            ∧ s3_key f ⟨"acme", "b1", none, none⟩ ⟨1, 2, 3⟩ = some key)) :=
  ⟨by decide, by decide,
   C9_theorem ⟨"acme", "b1", none, none⟩ ⟨1, 2, 3⟩ (fun _ => true) [] "LOG_BASED" "orders"
     ⟨2020, 1, 2⟩ (by decide) (by decide)⟩

/-- C10.  With the state still the initial `{}`, every RECORD line raises
`KeyError` at `state['value']`, so the per-line handler drops it — the
buffers are untouched; and when `state_file_path` is absent the state can
never leave `{}`, so an entire run buffers (and so uploads) nothing at
all. -/
theorem C10_theorem (config : Config) (pOk : Bool) (m : StreamMap)
    (raw stream : String) (rec : List (String × String)) (d : Date)
    (lines : List (InputLine × Date))
    (h : config.state_file_path = none) :
    create_stream_to_record_map m (mkRecordLine raw stream rec) TgtState.empty config d pOk
      = .error .keyError
    ∧ step config pOk (m, TgtState.empty) (mkRecordLine raw stream rec, d)
        = (m, TgtState.empty)
    ∧ lines.foldl (step config pOk) (([] : StreamMap), TgtState.empty)
        = (([] : StreamMap), TgtState.empty) := by
  refine ⟨?_, ?_, fold_empty_nopath config pOk h lines⟩
  · simp [create_stream_to_record_map, mkRecordLine, TgtState.value?]
  · rw [step_eq, line_key_empty]
    have hs : state_step TgtState.empty (mkRecordLine raw stream rec) config pOk
        = TgtState.empty := by
      simp [state_step, mkRecordLine]
    rw [hs]

/-- C10, witness: `C10_theorem` at a concrete RECORD line and a config
without `state_file_path`. -/
theorem C10_witness :
    ((⟨"acme", "b1", none, none⟩ : Config).state_file_path = none)
    ∧ (create_stream_to_record_map [] (mkRecordLine "r" "orders" [("_id", "x")])
          TgtState.empty ⟨"acme", "b1", none, none⟩ ⟨2020, 1, 1⟩ true
        = .error .keyError
      ∧ step ⟨"acme", "b1", none, none⟩ true ([], TgtState.empty)
          (mkRecordLine "r" "orders" [("_id", "x")], ⟨2020, 1, 1⟩) = ([], TgtState.empty)
      ∧ [(mkRecordLine "r" "orders" [("_id", "x")], ⟨2020, 1, 1⟩)].foldl
          (step ⟨"acme", "b1", none, none⟩ true) (([] : StreamMap), TgtState.empty)
          = (([] : StreamMap), TgtState.empty)) :=
  ⟨by decide,
   C10_theorem ⟨"acme", "b1", none, none⟩ true [] "r" "orders" [("_id", "x")] ⟨2020, 1, 1⟩
     [(mkRecordLine "r" "orders" [("_id", "x")], ⟨2020, 1, 1⟩)] (by decide)⟩

end TargetS3
